import Mathlib

/-!
Verification of the btc-price acquisition module
(`src/components/LiveBtcPrice/useBtcPrice.ts`, plus the earlier revision of the
same hook kept in the repository).

The module is shallowly embedded: machine numbers (JS doubles) are modelled as
exact rationals, with an explicit `JsNum` type carrying the IEEE special values
(`Infinity`, `-Infinity`, `NaN`) that the division in the code can produce;
timestamps are integers (epoch milliseconds); `localStorage` slots are explicit
values threaded through the functions; `Date.now()` readings, network outcomes
and `Math.random()` draws are supplied as oracles.  React state setters are
modelled as direct writes to an explicit hook-state record, exactly as the
code of the hook itself sequences them.
-/

/-- A JS number as produced by the arithmetic of the hook: a finite rational or one
of the IEEE special values. -/
inductive JsNum where
  | num (q : ℚ)
  | posInf
  | negInf
  | nan
deriving Repr, DecidableEq

/-- One tracked instrument, mirroring the `TickerItem` interface. -/
structure TickerItem where
  id : String
  label : String
  currentPrice : Option JsNum
  priceChange24h : Option JsNum
  currencySymbol : String
deriving Repr, DecidableEq

/-- The persisted cache snapshot, mirroring the `CachedData` interface. -/
structure CachedData where
  items : List TickerItem
  lastUpdated : Int
deriving Repr, DecidableEq

/-- The `localStorage` cache slot: absent, present but unparsable, or a parsed
record.  (`JSON.parse` failure in `getCachedData` is caught and treated as
absent.) -/
inductive CacheSlot where
  | absent
  | malformed
  | valid (d : CachedData)
deriving Repr, DecidableEq

/-- Constant `CACHE_DURATION = 5 * 60 * 1000` in the current revision. -/
def CACHE_DURATION : Int := 5 * 60 * 1000

/-- Constant `RATE_LIMIT_WINDOW = 60 * 1000`. -/
def RATE_LIMIT_WINDOW : Int := 60 * 1000

/-- Constant `MAX_RETRIES = 1` in the current revision. -/
def MAX_RETRIES : ℕ := 1

/-- Constant `BASE_BACKOFF = 3000` in the current revision. -/
def BASE_BACKOFF : ℕ := 3000

/-- JS division `a / b` on exact operands: finite quotient when `b ≠ 0`,
otherwise the IEEE `±Infinity` / `NaN` special values (`x / 0` is `Infinity`
for `x > 0`, `-Infinity` for `x < 0`, `NaN` for `0 / 0`). -/
def jsDiv (a b : ℚ) : JsNum :=
  if b ≠ 0 then JsNum.num (a / b)
  else if 0 < a then JsNum.posInf
  else if a < 0 then JsNum.negInf
  else JsNum.nan

/-- JS `x || 0` on a number: returns `0` when `x` is falsy (`NaN`, `0`, `-0`)
and `x` itself otherwise.  In particular `Infinity || 0` is `Infinity`. -/
def jsOrZero : JsNum → JsNum
  | JsNum.nan => JsNum.num 0
  | x => x

/-- Function `getCachedData`: reads the cache slot; absent or unparsable data yields
`null`; a parsed record is returned only when
`Date.now() - parsed.lastUpdated < CACHE_DURATION`. -/
def getCachedData (slot : CacheSlot) (now : Int) : Option CachedData :=
  match slot with
  | CacheSlot.absent => none
  | CacheSlot.malformed => none
  | CacheSlot.valid d =>
    if now - d.lastUpdated < CACHE_DURATION then some d else none

/-- The per-item body of the `map` inside `updateTickerItems`: replace the item by the
batch entry with the matching id when there is one (the spread
`{ ...item, ...updatedItem }` overwrites every field), otherwise keep it. -/
def updItem (newItems : List TickerItem) (item : TickerItem) : TickerItem :=
  match newItems.find? (fun newItem => newItem.id == item.id) with
  | some updatedItem => updatedItem
  | none => item

/-- Function `updateTickerItems`: merge a new batch into the previous items by id. -/
def updateTickerItems (prevItems newItems : List TickerItem) : List TickerItem :=
  prevItems.map (updItem newItems)

/-- The initial `tickerItems` state of the hook (current revision). -/
def initialTickerItems : List TickerItem :=
  [ { id := "btc-usd", label := "BTC/USD", currentPrice := none,
      priceChange24h := none, currencySymbol := "$" },
    { id := "btc-eur", label := "BTC/EUR", currentPrice := none,
      priceChange24h := none, currencySymbol := "€" },
    { id := "btc-eth", label := "BTC/ETH", currentPrice := none,
      priceChange24h := none, currencySymbol := "Ξ" },
    { id := "gold-usd", label := "Gold (oz)/USD", currentPrice := none,
      priceChange24h := none, currencySymbol := "$" } ]

/-- Raw per-instrument provider data: `current_price` and
`price_change_percentage_24h`. -/
structure Coin where
  current_price : ℚ
  price_change_percentage_24h : ℚ
deriving Repr, DecidableEq

/-- The `updatedItems` batch built in `fetchBtcPrice` (current revision):
BTC/USD raw, BTC/EUR as a hard-coded `* 0.9` conversion carrying the BTC
change, BTC/ETH as the cross ratio with the derived change, and gold/USD raw
(`goldPricePerOz = goldData.current_price`). -/
def buildUpdatedItems (btcData ethData goldData : Coin) : List TickerItem :=
  let btcEthPrice := jsDiv btcData.current_price ethData.current_price
  let btcEthChange24h := jsOrZero (jsDiv
    (btcData.price_change_percentage_24h - ethData.price_change_percentage_24h)
    (1 + ethData.price_change_percentage_24h / 100))
  [ { id := "btc-usd", label := "BTC/USD",
      currentPrice := some (JsNum.num btcData.current_price),
      priceChange24h := some (JsNum.num btcData.price_change_percentage_24h),
      currencySymbol := "$" },
    { id := "btc-eur", label := "BTC/EUR",
      currentPrice := some (JsNum.num (btcData.current_price * (9 / 10))),
      priceChange24h := some (JsNum.num btcData.price_change_percentage_24h),
      currencySymbol := "€" },
    { id := "btc-eth", label := "BTC/ETH",
      currentPrice := some btcEthPrice,
      priceChange24h := some btcEthChange24h,
      currencySymbol := "Ξ" },
    { id := "gold-usd", label := "Gold (oz)/USD",
      currentPrice := some (JsNum.num goldData.current_price),
      priceChange24h := some (JsNum.num goldData.price_change_percentage_24h),
      currencySymbol := "$" } ]

/-- The id sequence of an item list. -/
def ids (l : List TickerItem) : List String := l.map TickerItem.id

/-- The soft error message set by the catch block of `fetchBtcPrice`. -/
def fetchFailMsg : String := "Failed to fetch live data. Using cached data if available."

/-- The published state of the hook: `tickerItems`, `isLoading`, `error`,
`lastUpdated`, plus the `isMounted` ref read by the guards. -/
structure HookState where
  tickerItems : List TickerItem
  isLoading : Bool
  error : Option String
  lastUpdated : Option Int
  mounted : Bool
deriving Repr, DecidableEq

/-- Outcome of the awaited network sequence inside `fetchBtcPrice`: either a
response whose `reduce` keyed the three coins (each possibly missing, which
makes the completeness check throw), or a rejection of `fetchWithRetry`. -/
inductive FetchOutcome where
  | success (btcData ethData goldData : Option Coin)
  | failure
deriving Repr, DecidableEq

/-- Environment of one `fetchBtcPrice` call: the cache slot, the `Date.now()`
readings (at the cache check, at completion, and inside the catch block), the
network outcome, and whether the component unmounts while the call is awaiting
the network. -/
structure FetchEnv where
  slot : CacheSlot
  now : Int
  completeTime : Int
  catchTime : Int
  outcome : FetchOutcome
  unmountDuringAwait : Bool
deriving Repr, DecidableEq

/-- Result of one `fetchBtcPrice` call: the final hook state, the final cache
slot, and whether the network sequence was entered. -/
structure FetchResult where
  state : HookState
  slot : CacheSlot
  networkCalled : Bool
deriving Repr, DecidableEq

/-- The catch block of `fetchBtcPrice`: set the soft error, then re-read the
cache (through the freshness filter of `getCachedData`) and re-publish it if it
comes back non-null. -/
def catchFallback (s : HookState) (env : FetchEnv) : HookState :=
  let s3 := { s with error := some fetchFailMsg }
  match getCachedData env.slot env.catchTime with
  | some d =>
    { s3 with tickerItems := updateTickerItems s3.tickerItems d.items,
              lastUpdated := some d.lastUpdated }
  | none => s3

/-- The finally block: `if (isMounted.current) setIsLoading(false)` — the only
state write the hook guards with the mounted flag. -/
def finallyStep (s : HookState) : HookState :=
  if s.mounted then { s with isLoading := false } else s

/-- The network half of `fetchBtcPrice`, from `setIsLoading(true)` onwards.
The mounted flag may flip during the await; every later write
(`updateTickerItems`, `setLastUpdated`, `saveToCache`, `setError` in the
catch) runs unconditionally, only the finally block checks the flag. -/
def fetchNetwork (s1 : HookState) (env : FetchEnv) : FetchResult :=
  let s2 := { s1 with isLoading := true, error := none }
  let mountedAfter := s2.mounted && !env.unmountDuringAwait
  match env.outcome with
  | FetchOutcome.success (some btcData) (some ethData) (some goldData) =>
    let updatedItems := buildUpdatedItems btcData ethData goldData
    let s3 := { s2 with mounted := mountedAfter,
                        tickerItems := updateTickerItems s2.tickerItems updatedItems,
                        lastUpdated := some env.completeTime }
    { state := finallyStep s3,
      slot := CacheSlot.valid { items := updatedItems, lastUpdated := env.completeTime },
      networkCalled := true }
  | FetchOutcome.success _ _ _ =>
    { state := finallyStep (catchFallback { s2 with mounted := mountedAfter } env),
      slot := env.slot, networkCalled := true }
  | FetchOutcome.failure =>
    { state := finallyStep (catchFallback { s2 with mounted := mountedAfter } env),
      slot := env.slot, networkCalled := true }

/-- One `fetchBtcPrice` call (current revision): the mounted and re-entrancy
guards, the cache-first publish with the fresh-skip, then the network
sequence with its catch and finally blocks. -/
def fetchBtcPrice (s : HookState) (env : FetchEnv) : FetchResult :=
  if s.mounted = false then { state := s, slot := env.slot, networkCalled := false }
  else if s.isLoading then { state := s, slot := env.slot, networkCalled := false }
  else
    match getCachedData env.slot env.now with
    | some d =>
      let s1 := { s with tickerItems := updateTickerItems s.tickerItems d.items,
                         lastUpdated := some d.lastUpdated, isLoading := false }
      if env.now - d.lastUpdated < CACHE_DURATION then
        { state := finallyStep s1, slot := env.slot, networkCalled := false }
      else fetchNetwork s1 env
    | none => fetchNetwork s env

/-- The persisted rate-limit counter (`coingecko_rate_limit`):
`{ timestamp, count }`. -/
structure RateCounter where
  timestamp : Int
  count : ℕ
deriving Repr, DecidableEq

/-- The rate-limit block at the top of `fetchWithRetry` (current revision):
returns the requested wait in milliseconds and the persisted counter.  No
stored counter, or an expired window, starts a fresh window with count 1; a
count below 5 increments; at the ceiling the caller waits the remaining window
time plus a 1 s buffer and then persists a fresh window with count 1 (stamped
with `Date.now()` after the wait). -/
def rateLimitStep (slot : Option RateCounter) (now : Int) : Int × RateCounter :=
  match slot with
  | none => (0, { timestamp := now, count := 1 })
  | some c =>
    if now - c.timestamp > RATE_LIMIT_WINDOW then (0, { timestamp := now, count := 1 })
    else if c.count ≥ 5 then
      let timeToWait := c.timestamp + RATE_LIMIT_WINDOW - now
      (timeToWait + 1000, { timestamp := now + timeToWait + 1000, count := 1 })
    else (0, { timestamp := c.timestamp, count := c.count + 1 })

/-- What one attempt of the underlying `axios` call produces: a 2xx response,
a rejection with HTTP status 429, or any other rejection (timeout, network or
non-2xx error). -/
inductive AttemptResult where
  | ok
  | err429
  | errOther
deriving Repr, DecidableEq

/-- The waits and calls `fetchWithRetry` issues, in order: the rate-limiter
wait, the fixed 500 ms pre-request delay, the network attempt, the fixed
30 s cooldown taken on a 429, and the backoff-plus-jitter wait before a
retry. -/
inductive FEvent where
  | rateWait (ms : Int)
  | preDelay
  | attempt (r : AttemptResult)
  | cooldown (ms : ℕ)
  | backoff (ms : ℕ)
deriving Repr, DecidableEq

/-- One whole `fetchWithRetry` run: its event trace, whether it resolved, and
the final persisted rate-limit counter. -/
structure FetchRun where
  events : List FEvent
  success : Bool
  rateSlot : Option RateCounter
deriving Repr, DecidableEq

/-- The jitter `Math.floor(Math.random() * 1000)` for the k-th retry, with the random
draws supplied as an oracle. -/
def jitterOf (rand : ℕ → ℚ) (k : ℕ) : ℕ := (Int.floor (rand k * 1000)).toNat

/-- Function `fetchWithRetry` (current revision), with the attempt outcomes, random
draws and `Date.now()` readings supplied as oracles indexed by recursion
depth `k`.  On an error: a 429 first waits a fixed 30 s and resets the
persisted counter to count 0; then — 429 or not — the call rethrows when no
retries remain, and otherwise waits `backoff` plus jitter and recurses with
one retry fewer and the backoff doubled, capped at 30 s. -/
def fetchWithRetry (att : ℕ → AttemptResult) (rand : ℕ → ℚ) (times : ℕ → Int)
    (k : ℕ) (slot : Option RateCounter) (retries backoff : ℕ) : FetchRun :=
  let p := rateLimitStep slot (times k)
  let evs0 := [FEvent.rateWait p.1, FEvent.preDelay, FEvent.attempt (att k)]
  match retries with
  | 0 =>
    match att k with
    | AttemptResult.ok => { events := evs0, success := true, rateSlot := some p.2 }
    | AttemptResult.err429 =>
      { events := evs0 ++ [FEvent.cooldown 30000], success := false,
        rateSlot := some { timestamp := times k + 30000, count := 0 } }
    | AttemptResult.errOther =>
      { events := evs0, success := false, rateSlot := some p.2 }
  | r + 1 =>
    match att k with
    | AttemptResult.ok => { events := evs0, success := true, rateSlot := some p.2 }
    | AttemptResult.err429 =>
      let rest := fetchWithRetry att rand times (k + 1)
        (some { timestamp := times k + 30000, count := 0 }) r (min (backoff * 2) 30000)
      { events := evs0 ++ FEvent.cooldown 30000 ::
          FEvent.backoff (backoff + jitterOf rand k) :: rest.events,
        success := rest.success, rateSlot := rest.rateSlot }
    | AttemptResult.errOther =>
      let rest := fetchWithRetry att rand times (k + 1)
        (some p.2) r (min (backoff * 2) 30000)
      { events := evs0 ++ FEvent.backoff (backoff + jitterOf rand k) :: rest.events,
        success := rest.success, rateSlot := rest.rateSlot }

/-- The backoff delays requested during a run, in order. -/
def backoffWaits : List FEvent → List ℕ
  | [] => []
  | FEvent.backoff d :: rest => d :: backoffWaits rest
  | FEvent.rateWait _ :: rest => backoffWaits rest
  | FEvent.preDelay :: rest => backoffWaits rest
  | FEvent.attempt _ :: rest => backoffWaits rest
  | FEvent.cooldown _ :: rest => backoffWaits rest

namespace Old

/-- The initial `tickerItems` state of the hook in the earlier revision
(`src/unnamed/part_000`): the gold instrument is tracked under id
`btc-gold`. -/
def initialTickerItems : List TickerItem :=
  [ { id := "btc-usd", label := "BTC/USD", currentPrice := none,
      priceChange24h := none, currencySymbol := "$" },
    { id := "btc-eur", label := "BTC/EUR", currentPrice := none,
      priceChange24h := none, currencySymbol := "€" },
    { id := "btc-eth", label := "BTC/ETH", currentPrice := none,
      priceChange24h := none, currencySymbol := "Ξ" },
    { id := "btc-gold", label := "Gold (oz)", currentPrice := none,
      priceChange24h := none, currencySymbol := "oz" } ]

/-- The `updatedItems` batch built by `fetchBtcPrice` in the earlier revision:
same shape as the current one except the gold price is
`goldData.current_price * 31.1` — and the gold entry carries id `gold-usd`. -/
def buildUpdatedItems (btcData ethData goldData : Coin) : List TickerItem :=
  let btcEthPrice := jsDiv btcData.current_price ethData.current_price
  let btcEthChange24h := jsOrZero (jsDiv
    (btcData.price_change_percentage_24h - ethData.price_change_percentage_24h)
    (1 + ethData.price_change_percentage_24h / 100))
  let goldPricePerOz := goldData.current_price * (311 / 10)
  [ { id := "btc-usd", label := "BTC/USD",
      currentPrice := some (JsNum.num btcData.current_price),
      priceChange24h := some (JsNum.num btcData.price_change_percentage_24h),
      currencySymbol := "$" },
    { id := "btc-eur", label := "BTC/EUR",
      currentPrice := some (JsNum.num (btcData.current_price * (9 / 10))),
      priceChange24h := some (JsNum.num btcData.price_change_percentage_24h),
      currencySymbol := "€" },
    { id := "btc-eth", label := "BTC/ETH",
      currentPrice := some btcEthPrice,
      priceChange24h := some btcEthChange24h,
      currencySymbol := "Ξ" },
    { id := "gold-usd", label := "Gold (oz)/USD",
      currentPrice := some (JsNum.num goldPricePerOz),
      priceChange24h := some (JsNum.num goldData.price_change_percentage_24h),
      currencySymbol := "$" } ]

end Old

/-! Section: Helper lemmas about the merge -/

/-- Merging preserves the id of each item: the batch entry that replaces an item
was found by the predicate `newItem.id == item.id`. -/
theorem updItem_id (batch : List TickerItem) (item : TickerItem) :
    (updItem batch item).id = item.id := by
  unfold updItem
  cases h : batch.find? (fun newItem => newItem.id == item.id) with
  | none => rfl
  | some u =>
    have hu := List.find?_some h
    simpa using hu

/-- Merging a batch never changes the id sequence. -/
theorem ids_updateTickerItems (batch : List TickerItem) :
    ∀ prev, ids (updateTickerItems prev batch) = ids prev := by
  intro prev
  induction prev with
  | nil => rfl
  | cons item rest ih =>
    show (updItem batch item).id :: ids (updateTickerItems rest batch)
        = item.id :: ids rest
    rw [updItem_id, ih]

/-- Any number of merges never changes the id sequence. -/
theorem ids_foldl_updateTickerItems (batches : List (List TickerItem)) :
    ∀ init, ids (batches.foldl updateTickerItems init) = ids init := by
  induction batches with
  | nil => intro init; rfl
  | cons b bs ih =>
    intro init
    show ids (bs.foldl updateTickerItems (updateTickerItems init b)) = ids init
    rw [ih, ids_updateTickerItems]

/-- If no batch entry carries id `tid`, merging leaves the `find?` for `tid`
unchanged. -/
theorem find?_updateTickerItems_of_not_in_batch (batch : List TickerItem) (tid : String)
    (h : batch.find? (fun newItem => newItem.id == tid) = none) :
    ∀ prev, (updateTickerItems prev batch).find? (fun i => i.id == tid)
      = prev.find? (fun i => i.id == tid) := by
  intro prev
  induction prev with
  | nil => rfl
  | cons item rest ih =>
    show List.find? _ (updItem batch item :: updateTickerItems rest batch) = _
    by_cases hid : item.id = tid
    · have hb : batch.find? (fun newItem => newItem.id == item.id) = none := by
        rw [hid]; exact h
      have hu : updItem batch item = item := by unfold updItem; rw [hb]
      rw [hu, List.find?_cons_of_pos, List.find?_cons_of_pos] <;> simp [hid]
    · rw [List.find?_cons_of_neg, List.find?_cons_of_neg, ih]
      · simp [hid]
      · simp [updItem_id, hid]

/-- If the batch does carry an entry for id `tid` and `tid` occurs among the
previous items, `find?` for `tid` on the merged list returns that batch
entry. -/
theorem find?_updateTickerItems_of_in_batch (batch : List TickerItem) (tid : String)
    (u : TickerItem)
    (hb : batch.find? (fun newItem => newItem.id == tid) = some u) :
    ∀ prev, (prev.find? (fun i => i.id == tid)).isSome = true →
      (updateTickerItems prev batch).find? (fun i => i.id == tid) = some u := by
  intro prev
  induction prev with
  | nil => intro hp; simp [List.find?] at hp
  | cons item rest ih =>
    intro hp
    show List.find? _ (updItem batch item :: updateTickerItems rest batch) = some u
    by_cases hid : item.id = tid
    · have hbi : batch.find? (fun newItem => newItem.id == item.id) = some u := by
        rw [hid]; exact hb
      have hu : updItem batch item = u := by unfold updItem; rw [hbi]
      rw [List.find?_cons_of_pos, hu]
      simp [updItem_id, hid]
    · rw [List.find?_cons_of_neg]
      · apply ih
        rw [List.find?_cons_of_neg] at hp
        · exact hp
        · simp [hid]
      · simp [updItem_id, hid]

/-! Section: Helper lemmas about the retry schedule -/

/-- Doubling-with-cap iterated: one doubling step followed by `i` more agrees
with the closed form `min (B * 2 ^ (i+1)) 30000`. -/
theorem min_double_pow (B i : ℕ) :
    min (min (B * 2) 30000 * 2 ^ i) 30000 = min (B * 2 ^ (i + 1)) 30000 := by
  rcases Nat.le_total (B * 2) 30000 with h | h
  · rw [Nat.min_eq_left h]
    congr 1
    rw [pow_succ]
    ring
  · rw [Nat.min_eq_right h]
    have h1 : 30000 ≤ 30000 * 2 ^ i :=
      Nat.le_mul_of_pos_right _ (Nat.pos_pow_of_pos i (by norm_num))
    have h2 : 30000 ≤ B * 2 ^ (i + 1) := by
      calc 30000 ≤ B * 2 := h
        _ ≤ B * 2 * 2 ^ i := Nat.le_mul_of_pos_right _ (Nat.pos_pow_of_pos i (by norm_num))
        _ = B * 2 ^ (i + 1) := by rw [pow_succ]; ring
    rw [Nat.min_eq_right h1, Nat.min_eq_right h2]

/-- On a run where every attempt fails with a non-429 error, the requested
backoff delays are exactly `min (B * 2^i) 30000` plus the i-th jitter, one for
each available retry. -/
theorem backoffWaits_allFail (rand : ℕ → ℚ) (times : ℕ → Int) :
    ∀ (R : ℕ) (k : ℕ) (slot : Option RateCounter) (B : ℕ), B ≤ 30000 →
      backoffWaits (fetchWithRetry (fun _ => AttemptResult.errOther) rand times
          k slot R B).events
        = (List.range R).map (fun i => min (B * 2 ^ i) 30000 + jitterOf rand (k + i)) := by
  intro R
  induction R with
  | zero => intro k slot B _hB; rfl
  | succ r ih =>
    intro k slot B hB
    show backoffWaits (_ ++ FEvent.backoff (B + jitterOf rand k) :: _) = _
    have hsplit : ∀ (l : List FEvent) (d : ℕ),
        backoffWaits ([FEvent.rateWait (rateLimitStep slot (times k)).1, FEvent.preDelay,
          FEvent.attempt AttemptResult.errOther] ++ FEvent.backoff d :: l)
        = d :: backoffWaits l := fun _ _ => rfl
    rw [hsplit, ih (k + 1) (some (rateLimitStep slot (times k)).2) (min (B * 2) 30000)
      (Nat.min_le_right _ _)]
    rw [List.range_succ_eq_map, List.map_cons, List.map_map]
    congr 1
    · rw [pow_zero, Nat.mul_one, Nat.min_eq_left hB, Nat.add_zero]
    · apply List.map_congr_left
      intro i _
      show min (min (B * 2) 30000 * 2 ^ i) 30000 + jitterOf rand (k + 1 + i)
          = min (B * 2 ^ (i + 1)) 30000 + jitterOf rand (k + (i + 1))
      rw [min_double_pow B i]
      congr 2
      omega

/-- A run where every attempt fails with a non-429 error never resolves. -/
theorem fetchWithRetry_allFail_success (rand : ℕ → ℚ) (times : ℕ → Int) :
    ∀ (R : ℕ) (k : ℕ) (slot : Option RateCounter) (B : ℕ),
      (fetchWithRetry (fun _ => AttemptResult.errOther) rand times k slot R B).success
        = false := by
  intro R
  induction R with
  | zero => intro k slot B; rfl
  | succ r ih => intro k slot B; exact ih (k + 1) _ _

/-! Section: C6 — the tracked id set is fixed -/

/-- Claim C6: across any sequence of refresh cycles the published id sequence is
constant and equal to the configured set: a merge never changes the id
sequence, an item whose id is absent from the batch keeps its `find?` result,
and any number of merges starting from the configured items keeps the
configured id sequence. -/
theorem id_set_invariant (prev batch : List TickerItem) (tid : String)
    (batches : List (List TickerItem))
    (h : batch.find? (fun newItem => newItem.id == tid) = none) :
    ids (updateTickerItems prev batch) = ids prev ∧
    (updateTickerItems prev batch).find? (fun i => i.id == tid)
      = prev.find? (fun i => i.id == tid) ∧
    ids (batches.foldl updateTickerItems initialTickerItems)
      = ["btc-usd", "btc-eur", "btc-eth", "gold-usd"] :=
  ⟨ids_updateTickerItems batch prev,
   find?_updateTickerItems_of_not_in_batch batch tid h prev,
   by rw [ids_foldl_updateTickerItems]; rfl⟩

/-- Witness for C6 at a concrete input: the empty batch merged into the
configured items. -/
theorem id_set_invariant_witness :
    ids (updateTickerItems initialTickerItems []) = ids initialTickerItems ∧
    (updateTickerItems initialTickerItems []).find? (fun i => i.id == "btc-usd")
      = initialTickerItems.find? (fun i => i.id == "btc-usd") ∧
    ids ([([] : List TickerItem)].foldl updateTickerItems initialTickerItems)
      = ["btc-usd", "btc-eur", "btc-eth", "gold-usd"] :=
  id_set_invariant initialTickerItems [] "btc-usd" [[]] rfl

/-! Section: C10 — the gold id mismatch in the earlier revision -/

/-- In the earlier revision no fetched batch ever carries id `btc-gold`. -/
theorem old_batch_no_btc_gold (btcData ethData goldData : Coin) :
    (Old.buildUpdatedItems btcData ethData goldData).find?
      (fun newItem => newItem.id == "btc-gold") = none := rfl

/-- Folding the successful refreshes of the earlier revision never touches the
`btc-gold` entry. -/
theorem old_gold_entry_foldl (rounds : List (Coin × Coin × Coin)) :
    ∀ its : List TickerItem,
      ((rounds.foldl
          (fun acc r => updateTickerItems acc (Old.buildUpdatedItems r.1 r.2.1 r.2.2))
          its).find? (fun i => i.id == "btc-gold"))
        = its.find? (fun i => i.id == "btc-gold") := by
  induction rounds with
  | nil => intro its; rfl
  | cons r rs ih =>
    intro its
    rw [List.foldl_cons, ih,
      find?_updateTickerItems_of_not_in_batch _ _ (old_batch_no_btc_gold r.1 r.2.1 r.2.2)]

/-- Claim C10: in the revision kept as `src/unnamed/part_000` the initial items
track gold under id `btc-gold` while every fetched batch carries the gold
quote under id `gold-usd`; merging is by id, so after any number of
successful refreshes the published `btc-gold` item still has null price and
null 24h change. -/
theorem old_revision_gold_never_updated (rounds : List (Coin × Coin × Coin))
    (btcData ethData goldData : Coin) :
    ids (Old.buildUpdatedItems btcData ethData goldData)
      = ["btc-usd", "btc-eur", "btc-eth", "gold-usd"] ∧
    ((rounds.foldl
        (fun acc r => updateTickerItems acc (Old.buildUpdatedItems r.1 r.2.1 r.2.2))
        Old.initialTickerItems).find? (fun i => i.id == "btc-gold"))
      = some { id := "btc-gold", label := "Gold (oz)", currentPrice := none,
               priceChange24h := none, currencySymbol := "oz" } :=
  ⟨rfl, by rw [old_gold_entry_foldl]; rfl⟩

/-! Section: C7 — backoff growth -/

/-- Claim C7: on a run whose attempts all fail with non-429 errors, exactly one
backoff wait is requested per available retry; the i-th one (0-based) equals
`min (B * 2^i) 30000` plus a jitter below 1000 ms; and when the retries are
exhausted the fetch fails.  (`B ≤ 30000` holds for the configured
`BASE_BACKOFF = 3000`.) -/
theorem backoff_growth (rand : ℕ → ℚ) (times : ℕ → Int) (slot : Option RateCounter)
    (R B i : ℕ) (hB : B ≤ 30000) (h1 : rand i < 1) :
    (backoffWaits (fetchWithRetry (fun _ => AttemptResult.errOther) rand times
        0 slot R B).events).length = R ∧
    (i < R →
      (backoffWaits (fetchWithRetry (fun _ => AttemptResult.errOther) rand times
          0 slot R B).events)[i]?
        = some (min (B * 2 ^ i) 30000 + jitterOf rand i)) ∧
    jitterOf rand i < 1000 ∧
    (fetchWithRetry (fun _ => AttemptResult.errOther) rand times 0 slot R B).success
      = false := by
  have hw := backoffWaits_allFail rand times R 0 slot B hB
  refine ⟨?_, ?_, ?_, fetchWithRetry_allFail_success rand times R 0 slot B⟩
  · rw [hw, List.length_map, List.length_range]
  · intro hi
    rw [hw, List.getElem?_map, List.getElem?_range hi]
    simp
  · have hq : rand i * 1000 < 1000 := by nlinarith
    have hfl : Int.floor (rand i * 1000) < (1000 : ℤ) := by
      rw [Int.floor_lt]
      exact_mod_cast hq
    unfold jitterOf
    omega

/-- Witness for C7 at the configured constants: one retry, base backoff
3000 ms, random draw 1/2. -/
theorem backoff_growth_witness :
    (backoffWaits (fetchWithRetry (fun _ => AttemptResult.errOther) (fun _ => 1/2)
        (fun _ => 0) 0 none 1 3000).events).length = 1 ∧
    (0 < 1 →
      (backoffWaits (fetchWithRetry (fun _ => AttemptResult.errOther) (fun _ => 1/2)
          (fun _ => 0) 0 none 1 3000).events)[0]?
        = some (min (3000 * 2 ^ 0) 30000 + jitterOf (fun _ => 1/2) 0)) ∧
    jitterOf (fun _ => 1/2) 0 < 1000 ∧
    (fetchWithRetry (fun _ => AttemptResult.errOther) (fun _ => 1/2)
        (fun _ => 0) 0 none 1 3000).success = false :=
  backoff_growth (fun _ => 1/2) (fun _ => 0) none 1 3000 0 (by norm_num) (by norm_num)

/-! Section: C8 — rate limiter at the ceiling -/

/-- Claim C8: with the persisted counter at the ceiling (count 5) and the window
still open, the next admission requests a wait of at least the remaining
window time and persists a fresh window with count exactly 1. -/
theorem rate_limiter_ceiling_wait (ts now : Int)
    (hopen : now - ts ≤ RATE_LIMIT_WINDOW) :
    (rateLimitStep (some { timestamp := ts, count := 5 }) now).1
      ≥ ts + RATE_LIMIT_WINDOW - now ∧
    (rateLimitStep (some { timestamp := ts, count := 5 }) now).2.count = 1 := by
  have hW : RATE_LIMIT_WINDOW = 60000 := rfl
  rw [hW] at hopen
  simp only [rateLimitStep, hW]
  rw [if_neg (by omega), if_pos (by norm_num)]
  constructor
  · show ts + 60000 - now + 1000 ≥ ts + 60000 - now
    omega
  · rfl

/-- Witness for C8: window start 0, now 1000. -/
theorem rate_limiter_ceiling_wait_witness :
    (rateLimitStep (some { timestamp := 0, count := 5 }) 1000).1
      ≥ 0 + RATE_LIMIT_WINDOW - 1000 ∧
    (rateLimitStep (some { timestamp := 0, count := 5 }) 1000).2.count = 1 :=
  rate_limiter_ceiling_wait 0 1000 (by norm_num [RATE_LIMIT_WINDOW])

/-! Section: C3 — provider 429 handling -/

/-- Claim C3 counterexample: a fetch whose only attempt is answered with HTTP 429
and that has no retries remaining fails with an error — after the fixed
cooldown the 429 goes down the ordinary error path, so a 429 does count
against the retry budget and can by itself fail the fetch. -/
theorem rate_limit_429_exhausts_budget :
    (fetchWithRetry (fun _ => AttemptResult.err429) (fun _ => 0) (fun _ => 0)
        0 none 0 3000).success = false ∧
    (fetchWithRetry (fun _ => AttemptResult.err429) (fun _ => 0) (fun _ => 0)
        0 none 0 3000).events
      = [FEvent.rateWait 0, FEvent.preDelay, FEvent.attempt AttemptResult.err429,
         FEvent.cooldown 30000] := by
  exact ⟨rfl, rfl⟩

/-- Claim C3 amended: on a 429 the fetcher resets the persisted counter to count 0
and waits a fixed 30 s cooldown; then it continues down the ordinary failure
path — with no retries remaining it fails by rethrowing, and with retries
remaining it retries after the backoff wait with one retry fewer and the
backoff doubled (capped at 30 s). -/
theorem rate_limit_429_cooldown_and_retry_credit (att : ℕ → AttemptResult)
    (rand : ℕ → ℚ) (times : ℕ → Int) (slot : Option RateCounter) (r B : ℕ)
    (h429 : att 0 = AttemptResult.err429) :
    FEvent.cooldown 30000 ∈ (fetchWithRetry att rand times 0 slot r B).events ∧
    (fetchWithRetry att rand times 0 slot 0 B).success = false ∧
    (fetchWithRetry att rand times 0 slot 0 B).rateSlot
      = some { timestamp := times 0 + 30000, count := 0 } ∧
    (fetchWithRetry att rand times 0 slot (r + 1) B).events
      = [FEvent.rateWait (rateLimitStep slot (times 0)).1, FEvent.preDelay,
         FEvent.attempt AttemptResult.err429, FEvent.cooldown 30000,
         FEvent.backoff (B + jitterOf rand 0)]
        ++ (fetchWithRetry att rand times 1
              (some { timestamp := times 0 + 30000, count := 0 }) r
              (min (B * 2) 30000)).events ∧
    (fetchWithRetry att rand times 0 slot (r + 1) B).success
      = (fetchWithRetry att rand times 1
          (some { timestamp := times 0 + 30000, count := 0 }) r
          (min (B * 2) 30000)).success := by
  refine ⟨?_, ?_, ?_, ?_, ?_⟩
  · cases r with
    | zero => simp [fetchWithRetry, h429]
    | succ r' => simp [fetchWithRetry, h429]
  · simp [fetchWithRetry, h429]
  · simp [fetchWithRetry, h429]
  · simp [fetchWithRetry, h429]
  · simp [fetchWithRetry, h429]

/-- Witness for the amended C3 theorem: every attempt is a 429, no retries. -/
theorem rate_limit_429_cooldown_and_retry_credit_witness :
    FEvent.cooldown 30000 ∈ (fetchWithRetry (fun _ => AttemptResult.err429)
        (fun _ => 0) (fun _ => 0) 0 none 0 3000).events ∧
    (fetchWithRetry (fun _ => AttemptResult.err429) (fun _ => 0) (fun _ => 0)
        0 none 0 3000).success = false ∧
    (fetchWithRetry (fun _ => AttemptResult.err429) (fun _ => 0) (fun _ => 0)
        0 none 0 3000).rateSlot
      = some { timestamp := (fun _ => (0 : Int)) 0 + 30000, count := 0 } ∧
    (fetchWithRetry (fun _ => AttemptResult.err429) (fun _ => 0) (fun _ => 0)
        0 none (0 + 1) 3000).events
      = [FEvent.rateWait (rateLimitStep none ((fun _ => (0 : Int)) 0)).1, FEvent.preDelay,
         FEvent.attempt AttemptResult.err429, FEvent.cooldown 30000,
         FEvent.backoff (3000 + jitterOf (fun _ => 0) 0)]
        ++ (fetchWithRetry (fun _ => AttemptResult.err429) (fun _ => 0) (fun _ => 0) 1
              (some { timestamp := (fun _ => (0 : Int)) 0 + 30000, count := 0 }) 0
              (min (3000 * 2) 30000)).events ∧
    (fetchWithRetry (fun _ => AttemptResult.err429) (fun _ => 0) (fun _ => 0)
        0 none (0 + 1) 3000).success
      = (fetchWithRetry (fun _ => AttemptResult.err429) (fun _ => 0) (fun _ => 0) 1
          (some { timestamp := (fun _ => (0 : Int)) 0 + 30000, count := 0 }) 0
          (min (3000 * 2) 30000)).success :=
  rate_limit_429_cooldown_and_retry_credit (fun _ => AttemptResult.err429)
    (fun _ => 0) (fun _ => 0) none 0 3000 rfl

/-! Section: Helper lemmas about the orchestrator -/

/-- Every path through the network half of `fetchBtcPrice` counts as a
network call. -/
theorem fetchNetwork_networkCalled (s1 : HookState) (env : FetchEnv) :
    (fetchNetwork s1 env).networkCalled = true := by
  cases h : env.outcome with
  | failure => simp [fetchNetwork, h]
  | success o1 o2 o3 =>
    cases o1 <;> cases o2 <;> cases o3 <;> simp [fetchNetwork, h]

/-! Section: C5 — the freshness boundary -/

/-- Claim C5: a cache record whose age equals the freshness window is treated as
stale (the network sequence runs), while a record one millisecond younger is
treated as fresh (the cached items and timestamp are published and no network
call happens). -/
theorem freshness_boundary (s : HookState) (env : FetchEnv) (d : CachedData)
    (hm : s.mounted = true) (hl : s.isLoading = false)
    (hslot : env.slot = CacheSlot.valid d) :
    (env.now - d.lastUpdated = CACHE_DURATION →
      (fetchBtcPrice s env).networkCalled = true) ∧
    (env.now - d.lastUpdated = CACHE_DURATION - 1 →
      (fetchBtcPrice s env).networkCalled = false ∧
      (fetchBtcPrice s env).state.tickerItems
        = updateTickerItems s.tickerItems d.items ∧
      (fetchBtcPrice s env).state.lastUpdated = some d.lastUpdated ∧
      (fetchBtcPrice s env).state.isLoading = false) := by
  constructor
  · intro h
    have hget : getCachedData env.slot env.now = none := by
      rw [hslot]
      simp [getCachedData, h]
    simp [fetchBtcPrice, hm, hl, hget, fetchNetwork_networkCalled]
  · intro h
    have hfresh : env.now - d.lastUpdated < CACHE_DURATION := by
      rw [h]; norm_num [CACHE_DURATION]
    have hget : getCachedData env.slot env.now = some d := by
      rw [hslot]
      simp [getCachedData, hfresh]
    simp [fetchBtcPrice, hm, hl, hget, hfresh, finallyStep]

/-- Concrete inputs for the C5 witness: the configured initial state and a
cache record stamped 0 observed at exactly the window and one millisecond
inside it. -/
def wState : HookState :=
  { tickerItems := initialTickerItems, isLoading := false, error := none,
    lastUpdated := none, mounted := true }

/-- The cache record used by the C5 witness. -/
def wRecord : CachedData := { items := [], lastUpdated := 0 }

/-- Claim C5 witness environment with the record exactly at the window boundary. -/
def wEnvStale : FetchEnv :=
  { slot := CacheSlot.valid wRecord, now := CACHE_DURATION,
    completeTime := CACHE_DURATION, catchTime := CACHE_DURATION,
    outcome := FetchOutcome.failure, unmountDuringAwait := false }

/-- Claim C5 witness environment with the record one millisecond inside the
window. -/
def wEnvFresh : FetchEnv :=
  { slot := CacheSlot.valid wRecord, now := CACHE_DURATION - 1,
    completeTime := CACHE_DURATION, catchTime := CACHE_DURATION,
    outcome := FetchOutcome.failure, unmountDuringAwait := false }

/-- Witness for C5: at the boundary the network runs, one millisecond inside
it does not. -/
theorem freshness_boundary_witness :
    (fetchBtcPrice wState wEnvStale).networkCalled = true ∧
    (fetchBtcPrice wState wEnvFresh).networkCalled = false :=
  ⟨(freshness_boundary wState wEnvStale wRecord rfl rfl rfl).1 (by decide),
   ((freshness_boundary wState wEnvFresh wRecord rfl rfl rfl).2 (by decide)).1⟩

/-! Section: C1 — failure fallback and the freshness filter -/

/-- A cache record written by a prior successful fetch, with non-null
prices, stamped at epoch 0. -/
def priorRecord : CachedData :=
  { items := [ { id := "btc-usd", label := "BTC/USD",
                 currentPrice := some (JsNum.num 50000),
                 priceChange24h := some (JsNum.num 1), currencySymbol := "$" } ],
    lastUpdated := 0 }

/-- The C1 counterexample environment: the prior record is 400 000 ms old
(older than the 300 000 ms freshness window) and the fetch fails. -/
def envStaleFail : FetchEnv :=
  { slot := CacheSlot.valid priorRecord, now := 400000, completeTime := 400000,
    catchTime := 400000, outcome := FetchOutcome.failure,
    unmountDuringAwait := false }

/-- Claim C1 counterexample: a cache record exists (non-null prices, written by a
prior successful fetch) but is older than the freshness window; the refresh
fails, the non-fatal error message is published — yet the cached record is
NOT re-published: the published items stay the all-null initial items and the
last-updated timestamp stays unset.  The catch block re-reads the cache
through `getCachedData`, whose freshness filter drops the stale record. -/
theorem stale_cache_not_republished_on_failure :
    (fetchBtcPrice wState envStaleFail).state.error = some fetchFailMsg ∧
    (fetchBtcPrice wState envStaleFail).state.tickerItems = initialTickerItems ∧
    (fetchBtcPrice wState envStaleFail).state.lastUpdated = none := by
  decide

/-- Claim C1 amended: on a fetch failure the orchestrator publishes the non-fatal
error message and re-publishes the cached record only when that record passes
the freshness filter at the catch-time re-read; a record older than the
freshness window is treated as absent, so the previously published items and
timestamp are simply left unchanged (items never revert to null, they are
only ever overwritten by merges). -/
theorem failure_fallback_freshness_filtered (s : HookState) (env : FetchEnv)
    (d : CachedData) (hm : s.mounted = true) (hl : s.isLoading = false)
    (hslot : env.slot = CacheSlot.valid d)
    (hstale : ¬ env.now - d.lastUpdated < CACHE_DURATION)
    (hout : env.outcome = FetchOutcome.failure)
    (hnu : env.unmountDuringAwait = false) :
    (fetchBtcPrice s env).state.error = some fetchFailMsg ∧
    (¬ env.catchTime - d.lastUpdated < CACHE_DURATION →
      (fetchBtcPrice s env).state.tickerItems = s.tickerItems ∧
      (fetchBtcPrice s env).state.lastUpdated = s.lastUpdated) ∧
    (env.catchTime - d.lastUpdated < CACHE_DURATION →
      (fetchBtcPrice s env).state.tickerItems
        = updateTickerItems s.tickerItems d.items ∧
      (fetchBtcPrice s env).state.lastUpdated = some d.lastUpdated) := by
  have hget : getCachedData env.slot env.now = none := by
    rw [hslot]
    simp [getCachedData, hstale]
  have hmain : fetchBtcPrice s env = fetchNetwork s env := by
    simp [fetchBtcPrice, hm, hl, hget]
  rw [hmain]
  refine ⟨?_, ?_, ?_⟩
  · by_cases hc : env.catchTime - d.lastUpdated < CACHE_DURATION
    · have hgc : getCachedData env.slot env.catchTime = some d := by
        rw [hslot]; simp [getCachedData, hc]
      simp [fetchNetwork, hout, catchFallback, hgc, finallyStep, hm, hnu]
    · have hgc : getCachedData env.slot env.catchTime = none := by
        rw [hslot]; simp [getCachedData, hc]
      simp [fetchNetwork, hout, catchFallback, hgc, finallyStep, hm, hnu]
  · intro hc
    have hgc : getCachedData env.slot env.catchTime = none := by
      rw [hslot]; simp [getCachedData, hc]
    simp [fetchNetwork, hout, catchFallback, hgc, finallyStep, hm, hnu]
  · intro hc
    have hgc : getCachedData env.slot env.catchTime = some d := by
      rw [hslot]; simp [getCachedData, hc]
    simp [fetchNetwork, hout, catchFallback, hgc, finallyStep, hm, hnu]

/-- Witness for the amended C1 theorem: the stale-record failure environment. -/
theorem failure_fallback_freshness_filtered_witness :
    (fetchBtcPrice wState envStaleFail).state.error = some fetchFailMsg ∧
    (fetchBtcPrice wState envStaleFail).state.tickerItems = wState.tickerItems ∧
    (fetchBtcPrice wState envStaleFail).state.lastUpdated = wState.lastUpdated := by
  have h := failure_fallback_freshness_filtered wState envStaleFail priorRecord
    rfl rfl rfl (by decide) rfl rfl
  exact ⟨h.1, (h.2.1 (by decide)).1, (h.2.1 (by decide)).2⟩

/-! Section: C2 — publishes after teardown -/

/-- The C2 failing environment: empty cache, the component unmounts during
the network await, and the fetch then succeeds. -/
def envUnmountSuccess : FetchEnv :=
  { slot := CacheSlot.absent, now := 0, completeTime := 1000, catchTime := 1000,
    outcome := FetchOutcome.success (some { current_price := 98000, price_change_percentage_24h := 2 })
      (some { current_price := 1900, price_change_percentage_24h := 1 })
      (some { current_price := 2000, price_change_percentage_24h := 0 }),
    unmountDuringAwait := true }

/-- Claim C2 evidence: a refresh that completes after the component has unmounted
still publishes — the item set and the last-updated timestamp change and the
cache is written, because only the `setIsLoading(false)` in the finally block
is guarded by `isMounted` (the loading flag is left stuck at `true`). -/
theorem post_teardown_publish_still_mutates :
    (fetchBtcPrice wState envUnmountSuccess).state.mounted = false ∧
    (fetchBtcPrice wState envUnmountSuccess).state.tickerItems ≠ wState.tickerItems ∧
    (fetchBtcPrice wState envUnmountSuccess).state.lastUpdated = some 1000 ∧
    (fetchBtcPrice wState envUnmountSuccess).slot ≠ envUnmountSuccess.slot ∧
    (fetchBtcPrice wState envUnmountSuccess).state.isLoading = true := by
  decide

/-! Section: C9 — the hard-coded EUR conversion -/

/-- Claim C9: after every successful fetch the published and cached `btc-eur` item
has price exactly `0.9` times the fetched bitcoin/USD price and carries the
bitcoin/USD 24h change unchanged. -/
theorem btc_eur_hardcoded_conversion (prev : List TickerItem) (err0 : Option String)
    (lu0 : Option Int) (now ct ct2 : Int) (btcData ethData goldData : Coin)
    (hp : (prev.find? (fun i => i.id == "btc-eur")).isSome = true) :
    (fetchBtcPrice
        { tickerItems := prev, isLoading := false, error := err0,
          lastUpdated := lu0, mounted := true }
        { slot := CacheSlot.absent, now := now, completeTime := ct, catchTime := ct2,
          outcome := FetchOutcome.success (some btcData) (some ethData) (some goldData),
          unmountDuringAwait := false }).state.tickerItems.find?
        (fun i => i.id == "btc-eur")
      = some { id := "btc-eur", label := "BTC/EUR",
               currentPrice := some (JsNum.num (btcData.current_price * (9 / 10))),
               priceChange24h := some (JsNum.num btcData.price_change_percentage_24h),
               currencySymbol := "€" } ∧
    (fetchBtcPrice
        { tickerItems := prev, isLoading := false, error := err0,
          lastUpdated := lu0, mounted := true }
        { slot := CacheSlot.absent, now := now, completeTime := ct, catchTime := ct2,
          outcome := FetchOutcome.success (some btcData) (some ethData) (some goldData),
          unmountDuringAwait := false }).slot
      = CacheSlot.valid { items := buildUpdatedItems btcData ethData goldData,
                          lastUpdated := ct } ∧
    (buildUpdatedItems btcData ethData goldData).find? (fun i => i.id == "btc-eur")
      = some { id := "btc-eur", label := "BTC/EUR",
               currentPrice := some (JsNum.num (btcData.current_price * (9 / 10))),
               priceChange24h := some (JsNum.num btcData.price_change_percentage_24h),
               currencySymbol := "€" } := by
  have hfind : (buildUpdatedItems btcData ethData goldData).find?
      (fun newItem => newItem.id == "btc-eur")
      = some { id := "btc-eur", label := "BTC/EUR",
               currentPrice := some (JsNum.num (btcData.current_price * (9 / 10))),
               priceChange24h := some (JsNum.num btcData.price_change_percentage_24h),
               currencySymbol := "€" } := rfl
  refine ⟨?_, rfl, hfind⟩
  show (updateTickerItems prev (buildUpdatedItems btcData ethData goldData)).find?
      (fun i => i.id == "btc-eur") = _
  exact find?_updateTickerItems_of_in_batch _ _ _ hfind prev hp

/-- Witness for C9: the configured initial items and a concrete successful
response. -/
theorem btc_eur_hardcoded_conversion_witness :
    (fetchBtcPrice
        { tickerItems := initialTickerItems, isLoading := false, error := none,
          lastUpdated := none, mounted := true }
        { slot := CacheSlot.absent, now := 0, completeTime := 1000, catchTime := 1000,
          outcome := FetchOutcome.success
            (some { current_price := 98000, price_change_percentage_24h := 2 })
            (some { current_price := 1900, price_change_percentage_24h := 1 })
            (some { current_price := 2000, price_change_percentage_24h := 0 }),
          unmountDuringAwait := false }).state.tickerItems.find?
        (fun i => i.id == "btc-eur")
      = some { id := "btc-eur", label := "BTC/EUR",
               currentPrice := some (JsNum.num ((98000 : ℚ) * (9 / 10))),
               priceChange24h := some (JsNum.num (2 : ℚ)),
               currencySymbol := "€" } :=
  (btc_eur_hardcoded_conversion initialTickerItems none none 0 1000 1000
    { current_price := 98000, price_change_percentage_24h := 2 }
    { current_price := 1900, price_change_percentage_24h := 1 }
    { current_price := 2000, price_change_percentage_24h := 0 } rfl).1

/-! Section: C4 — the cross-ratio derived values -/

/-- Claim C4 counterexample: with counter-asset change exactly −100 the change
computation divides by zero and yields `Infinity`; `|| 0` only replaces falsy
values (`NaN`, `0`), so the published change is `Infinity`, not `0` — the
non-finite result is NOT replaced by 0. -/
theorem btc_eth_change_infinite_not_zeroed :
    (buildUpdatedItems
        { current_price := 98000, price_change_percentage_24h := 6 / 5 }
        { current_price := 19, price_change_percentage_24h := -100 }
        { current_price := 2000, price_change_percentage_24h := 0 }).map
        TickerItem.priceChange24h
      = [some (JsNum.num (6 / 5)), some (JsNum.num (6 / 5)), some JsNum.posInf,
         some (JsNum.num 0)] ∧
    JsNum.posInf ≠ JsNum.num 0 := by
  constructor
  · show [some (JsNum.num (6 / 5)), some (JsNum.num (6 / 5)),
        some (jsOrZero (jsDiv ((6 / 5 : ℚ) - -100) (1 + -100 / 100))),
        some (JsNum.num 0)] = _
    have hjs : jsDiv ((6 / 5 : ℚ) - -100) (1 + -100 / 100) = JsNum.posInf := by
      unfold jsDiv
      rw [if_neg (by norm_num), if_pos (by norm_num)]
    rw [show jsOrZero (jsDiv ((6 / 5 : ℚ) - -100) (1 + -100 / 100)) = JsNum.posInf by
      rw [hjs]; rfl]
  · decide

/-- Claim C4 amended: the published cross-ratio item has price `pB / pC` and 24h
change `(cB − cC) / (1 + cC/100)`; when the denominator is zero (`cC = −100`)
the change is `±Infinity` depending on the sign of `cB − cC`, and only the
`NaN` case (`cB = cC = −100`) is replaced by 0. -/
theorem btc_eth_ratio_formula (pB cB pC cC pG cG : ℚ) (hpC : pC ≠ 0) :
    (buildUpdatedItems
        { current_price := pB, price_change_percentage_24h := cB }
        { current_price := pC, price_change_percentage_24h := cC }
        { current_price := pG, price_change_percentage_24h := cG }).find?
        (fun i => i.id == "btc-eth")
      = some { id := "btc-eth", label := "BTC/ETH",
               currentPrice := some (JsNum.num (pB / pC)),
               priceChange24h := some (
                 if 1 + cC / 100 = 0 then
                   (if 0 < cB - cC then JsNum.posInf
                    else if cB - cC < 0 then JsNum.negInf
                    else JsNum.num 0)
                 else JsNum.num ((cB - cC) / (1 + cC / 100))),
               currencySymbol := "Ξ" } := by
  have hfind : (buildUpdatedItems
      { current_price := pB, price_change_percentage_24h := cB }
      { current_price := pC, price_change_percentage_24h := cC }
      { current_price := pG, price_change_percentage_24h := cG }).find?
      (fun i => i.id == "btc-eth")
      = some { id := "btc-eth", label := "BTC/ETH",
               currentPrice := some (jsDiv pB pC),
               priceChange24h := some (jsOrZero (jsDiv (cB - cC) (1 + cC / 100))),
               currencySymbol := "Ξ" } := rfl
  rw [hfind]
  have hprice : jsDiv pB pC = JsNum.num (pB / pC) := by
    simp [jsDiv, hpC]
  have hchange : jsOrZero (jsDiv (cB - cC) (1 + cC / 100))
      = (if 1 + cC / 100 = 0 then
          (if 0 < cB - cC then JsNum.posInf
           else if cB - cC < 0 then JsNum.negInf
           else JsNum.num 0)
         else JsNum.num ((cB - cC) / (1 + cC / 100))) := by
    by_cases hden : (1 : ℚ) + cC / 100 = 0
    · rcases lt_trichotomy (0 : ℚ) (cB - cC) with hlt | heq | hgt
      · simp [jsDiv, hden, hlt, jsOrZero, not_lt_of_gt hlt]
      · simp [jsDiv, jsOrZero, hden, ← heq]
      · simp [jsDiv, jsOrZero, hden, not_lt_of_gt hgt, hgt]
    · simp [jsDiv, jsOrZero, hden]
  rw [hprice, hchange]

/-- Witness for the amended C4 theorem at the scenario values of the spec: base
98000 with +1.2 %, counter 19 with +0.5 %. -/
theorem btc_eth_ratio_formula_witness :
    (buildUpdatedItems
        { current_price := 98000, price_change_percentage_24h := 6 / 5 }
        { current_price := 19, price_change_percentage_24h := 1 / 2 }
        { current_price := 2000, price_change_percentage_24h := 0 }).find?
        (fun i => i.id == "btc-eth")
      = some { id := "btc-eth", label := "BTC/ETH",
               currentPrice := some (JsNum.num ((98000 : ℚ) / 19)),
               priceChange24h := some (
                 if (1 : ℚ) + (1 / 2) / 100 = 0 then
                   (if (0 : ℚ) < 6 / 5 - 1 / 2 then JsNum.posInf
                    else if (6 / 5 : ℚ) - 1 / 2 < 0 then JsNum.negInf
                    else JsNum.num 0)
                 else JsNum.num (((6 / 5 : ℚ) - 1 / 2) / (1 + (1 / 2) / 100))),
               currencySymbol := "Ξ" } :=
  btc_eth_ratio_formula 98000 (6 / 5) 19 (1 / 2) 2000 0 (by norm_num)
